import Mathlib

/-!
Verification of the legal-trial Monte Carlo simulation engine
(`src/simulation/montecarlo.py`, `src/simulation/simulation.py`) against its
natural-language specification.

The Python code is shallowly embedded: pure helpers become Lean functions,
the engine's mutable state (`self.base_evidence`, `self.results`) becomes
explicit state passing, Python exceptions become `Except`/`Option` values,
and the external Gemini completion calls become oracle functions supplied
through an environment record.  Python `float`s are modelled as `ℚ`: every
constant the code manipulates (0.0, 0.5, 0.7, 1.0, parsed JSON decimals)
is an exact decimal, and the only operations used are comparison, min/max
clamping, sums and division, whose ordering behaviour agrees with IEEE
doubles on these values.
-/

set_option maxRecDepth 100000

namespace LegalSim

/-! ## String primitives

Models of the Python string operations used by the parsing code:
`str.lower`, the `in` substring test, `str.split`, `str.strip`. -/

/-- Model of Python `str.lower()` (ASCII case folding suffices for every
string the code compares against). -/
def lowerStr (s : String) : String := String.mk (s.toList.map Char.toLower)

/-- Substring test on character lists, the model of Python `pat in hay`. -/
def containsSub (hay pat : List Char) : Bool :=
  match hay with
  | [] => pat.isEmpty
  | _ :: t => pat.isPrefixOf hay || containsSub t pat

/-- Model of Python `pat in s` for strings. -/
def strContains (s pat : String) : Bool := containsSub s.toList pat.toList

/-- The suffix of `hay` that follows the first occurrence of `pat`,
`none` when `pat` does not occur.  Used to model scanning past a key. -/
def dropThroughSub (hay pat : List Char) : Option (List Char) :=
  match hay with
  | [] => if pat.isEmpty then some [] else none
  | _ :: t =>
    if pat.isPrefixOf hay then some (hay.drop pat.length)
    else dropThroughSub t pat

/-- JSON insignificant whitespace. -/
def isJsonWs (c : Char) : Bool := c = ' ' || c = '\t' || c = '\n' || c = '\r'

/-- Drop leading JSON whitespace. -/
def skipWs (cs : List Char) : List Char := cs.dropWhile isJsonWs

/-! ## A JSON value model and a parser for `json.loads`

The parser covers the JSON fragment the repository's completion responses
use: objects, arrays, strings with the common escapes, `null`, booleans and
decimal numbers (an optional sign, digits, an optional fraction).  Exponent
notation and `\u` escapes are not modelled; on such inputs the parser fails,
which the callers treat exactly like a `json.JSONDecodeError`. -/

inductive Json where
  | null : Json
  | bool (b : Bool) : Json
  | num (q : ℚ) : Json
  | str (s : String) : Json
  | arr (elems : List Json) : Json
  | obj (members : List (String × Json)) : Json

/-- Numeric value of a digit list (most significant first). -/
def digitsVal (ds : List Char) : ℕ := ds.foldl (fun a c => a * 10 + (c.toNat - 48)) 0

/-- Parse a JSON number at the head of the input, returning the value and
the unconsumed rest. -/
def parseNum (cs : List Char) : Option (ℚ × List Char) :=
  let p := match cs with
    | '-' :: t => (true, t)
    | _ => (false, cs)
  let neg := p.1
  let cs1 := p.2
  let ds := cs1.takeWhile Char.isDigit
  let rest := cs1.dropWhile Char.isDigit
  if ds.isEmpty then none else
  let intPart : ℚ := (digitsVal ds : ℚ)
  match rest with
  | '.' :: rest2 =>
    let fs := rest2.takeWhile Char.isDigit
    let rest3 := rest2.dropWhile Char.isDigit
    if fs.isEmpty then none
    else
      let q := intPart + (digitsVal fs : ℚ) / ((10 : ℚ) ^ fs.length)
      some (if neg then -q else q, rest3)
  | _ => some (if neg then -intPart else intPart, rest)

/-- Map a JSON escape character to the character it denotes (backspace and
form feed written by code point). -/
def escChar (e : Char) : Option Char :=
  if e = 'n' then some '\n'
  else if e = 't' then some '\t'
  else if e = 'r' then some '\r'
  else if e = '"' || e = '\\' || e = '/' then some e
  else if e = 'b' then some (Char.ofNat 8)
  else if e = 'f' then some (Char.ofNat 12)
  else none

/-- Scan a JSON string body (the opening quote already consumed), returning
the decoded characters and the rest of the input after the closing quote. -/
def scanStr : List Char → Option (List Char × List Char)
  | [] => none
  | '"' :: rest => some ([], rest)
  | '\\' :: rest =>
    match rest with
    | [] => none
    | e :: rest2 =>
      match escChar e with
      | none => none
      | some d => (scanStr rest2).map (fun p => (d :: p.1, p.2))
  | c :: rest => (scanStr rest).map (fun p => (c :: p.1, p.2))

/-- Parsing mode: a single value, the tail of an array, or the tail of an
object (accumulators hold the elements parsed so far, in order). -/
inductive PMode where
  | val : PMode
  | elems (acc : List Json) : PMode
  | members (acc : List (String × Json)) : PMode

/-- Fuel-indexed JSON parser.  `fuel` bounds the recursion depth; callers
supply fuel proportional to the input length, which is always sufficient
because every recursive call consumes at least one input character. -/
def pjson : ℕ → PMode → List Char → Option (Json × List Char)
  | 0, _, _ => none
  | fuel + 1, PMode.val, cs =>
    match skipWs cs with
    | 'n' :: 'u' :: 'l' :: 'l' :: rest => some (Json.null, rest)
    | 't' :: 'r' :: 'u' :: 'e' :: rest => some (Json.bool true, rest)
    | 'f' :: 'a' :: 'l' :: 's' :: 'e' :: rest => some (Json.bool false, rest)
    | '"' :: rest => (scanStr rest).map (fun p => (Json.str (String.mk p.1), p.2))
    | '[' :: rest =>
      match skipWs rest with
      | ']' :: rest2 => some (Json.arr [], rest2)
      | _ => pjson fuel (PMode.elems []) rest
    | '\x7b' :: rest =>
      match skipWs rest with
      | '\x7d' :: rest2 => some (Json.obj [], rest2)
      | _ => pjson fuel (PMode.members []) rest
    | c :: restAll =>
      if c = '-' || c.isDigit then
        (parseNum (c :: restAll)).map (fun p => (Json.num p.1, p.2))
      else none
    | [] => none
  | fuel + 1, PMode.elems acc, cs =>
    match pjson fuel PMode.val cs with
    | none => none
    | some (v, rest) =>
      match skipWs rest with
      | ',' :: rest2 => pjson fuel (PMode.elems (acc ++ [v])) rest2
      | ']' :: rest2 => some (Json.arr (acc ++ [v]), rest2)
      | _ => none
  | fuel + 1, PMode.members acc, cs =>
    match skipWs cs with
    | '"' :: rest =>
      match scanStr rest with
      | none => none
      | some (kcs, rest2) =>
        match skipWs rest2 with
        | ':' :: rest3 =>
          match pjson fuel PMode.val rest3 with
          | none => none
          | some (v, rest4) =>
            match skipWs rest4 with
            | ',' :: rest5 => pjson fuel (PMode.members (acc ++ [(String.mk kcs, v)])) rest5
            | '\x7d' :: rest5 => some (Json.obj (acc ++ [(String.mk kcs, v)]), rest5)
            | _ => none
        | _ => none
    | _ => none

/-- Model of Python `json.loads`: parse one JSON document and require that
only whitespace remains. -/
def json_loads (s : String) : Option Json :=
  match pjson (2 * s.length + 8) PMode.val s.toList with
  | some (v, rest) => if (skipWs rest).isEmpty then some v else none
  | none => none

/-- Python dictionaries built by `json.loads` keep the last binding of a
duplicated key, so field lookup scans for the last occurrence. -/
def lookupField (members : List (String × Json)) (key : String) : Option Json :=
  members.foldl (fun acc kv => if kv.1 = key then some kv.2 else acc) none

/-! ## Data model (`simulation.py`)

Embeddings of the dataclasses.  The `timestamp` fields (wall-clock
`datetime.now()` metadata) are not modelled; no verified claim mentions
them.  The optional trailing metadata fields of `StatuteInfo` and
`CasePrecedent` (`full_text`, `source_url`, …) default to `None` in the
source and are never read by the simulation core, so they are omitted. -/

inductive ArgumentType where
  | OPENING : ArgumentType
  | REBUTTAL : ArgumentType
  | CLOSING : ArgumentType
deriving Repr, DecidableEq

inductive VerdictOutcome where
  | PLAINTIFF_WIN : VerdictOutcome
  | DEFENSE_WIN : VerdictOutcome
  | SETTLEMENT : VerdictOutcome
deriving Repr, DecidableEq

/-- The numeric value attached to each outcome in the source enum
(`PLAINTIFF_WIN = 1`, `DEFENSE_WIN = 0`, `SETTLEMENT = 0.5`). -/
def VerdictOutcome.value : VerdictOutcome → ℚ
  | VerdictOutcome.PLAINTIFF_WIN => 1
  | VerdictOutcome.DEFENSE_WIN => 0
  | VerdictOutcome.SETTLEMENT => 1 / 2

inductive CourtLevel where
  | SUPREME_COURT | FEDERAL_CIRCUIT | FEDERAL_DISTRICT
  | STATE_SUPREME | STATE_APPEALS | STATE_TRIAL | UNKNOWN
deriving Repr, DecidableEq

structure StatuteInfo where
  title : String
  citation : String
  definitions : List (String × String)
  key_provisions : List String
  remedies : List String
  snippet : String
deriving Repr, DecidableEq

structure CasePrecedent where
  case_name : String
  year : String
  citation : String
  court : String
  court_level : CourtLevel
  holding : String
  rule : String
  confidence_score : ℚ := 0
deriving Repr, DecidableEq

structure CaseEvidence where
  case_description : String
  jurisdiction : String := "Federal"
  has_nda : Bool := true
  evidence_strength : String := "strong"
  venue_bias : String := "neutral"
  statutes : List StatuteInfo := []
  precedents : List CasePrecedent := []
  facts : List String := []
  documents : List String := []
  plaintiff_claims : List String := []
  defendant_claims : List String := []
  disputed_facts : List String := []
deriving Repr, DecidableEq

structure LegalArgument where
  agent_name : String
  argument_type : ArgumentType
  main_argument : String
  cited_statutes : List String
  cited_precedents : List String
  key_points : List String
  conclusion : String
deriving Repr, DecidableEq

structure Verdict where
  outcome : VerdictOutcome
  winner : String
  rationale : String
  key_factors : List String
  cited_authorities : List String
  confidence_score : ℚ
deriving Repr, DecidableEq

structure SimulationVariables where
  prosecutor_strategy : String := "moderate"
  defense_strategy : String := "moderate"
  judge_temperament : String := "balanced"
  has_nda : Bool := true
  evidence_strength : String := "moderate"
  venue_bias : String := "neutral"
  num_statutes_cited : ℕ := 3
  num_precedents_cited : ℕ := 3
  defendant_cooperation : String := "moderate"
  plaintiff_damages_claim : String := "moderate"
  time_since_departure : ℤ := 3
  competitor_relationship : String := "direct"
deriving Repr, DecidableEq

structure SimulationResult where
  simulation_id : ℕ
  /-- Source field name `variables` (a reserved command token in Lean). -/
  vars : SimulationVariables
  verdict : Verdict
  prosecutor_arguments : List LegalArgument
  defense_arguments : List LegalArgument
  execution_time : ℚ
deriving Repr, DecidableEq

/-- Python `str.strip()` whitespace class. -/
def isPyWs (c : Char) : Bool :=
  c = ' ' || c = '\t' || c = '\n' || c = '\r' || c = '\x0b' || c = '\x0c'

/-- Model of Python `str.strip()`. -/
def pyStrip (s : String) : String :=
  String.mk (((s.toList.dropWhile isPyWs).reverse.dropWhile isPyWs).reverse)

/-- Fuel-indexed worker for `pySplit`; every step consumes at least one
character, so fuel `length + 1` suffices. -/
def pySplitF : ℕ → List Char → List Char → List (List Char)
  | 0, cs, _ => [cs]
  | fuel + 1, cs, sep =>
    match cs with
    | [] => [[]]
    | c :: t =>
      if sep.isPrefixOf cs && !sep.isEmpty then
        [] :: pySplitF fuel (cs.drop sep.length) sep
      else
        match pySplitF fuel t sep with
        | [] => [[c]]
        | h :: rest => (c :: h) :: rest

/-- Model of Python `s.split(sep)` for a nonempty separator: left-to-right
scan over non-overlapping occurrences. -/
def pySplit (s sep : String) : List String :=
  (pySplitF (s.length + 1) s.toList sep.toList).map String.mk

/-! ## `JudgeAgent._parse_verdict` (`simulation.py` lines 698-754) -/

/-- The markdown-fence stripping at the top of `_parse_verdict`:
`response.split('```json')[1].split('```')[0]` when a ```` ```json ````
fence is present, else the analogous split on ```` ``` ````. -/
def stripFences (response : String) : String :=
  if strContains response ("```json") then
    (pySplit ((pySplit response ("```json")).getD 1 ("")) ("```")).headD ("")
  else if strContains response ("```") then
    (pySplit ((pySplit response ("```")).getD 1 ("")) ("```")).headD ("")
  else response

/-- Read a string field with a default for a missing key
(`data.get(key, default)`).  A present value of a non-string type is
modelled as a failure of the structured path; in Python such a value would
be stored unconverted, but no response shape the claims exercise hits that
case. -/
def getStrD (members : List (String × Json)) (key : String) (d : String) : Option String :=
  match lookupField members key with
  | none => some d
  | some (Json.str s) => some s
  | some _ => none

/-- Read a list-of-strings field, defaulting to `[]` and keeping the first
five entries (`data.get(key, [])[:5]`).  Non-list values and non-string
elements are modelled as structured-path failure (see `getStrD`). -/
def getStrList5 (members : List (String × Json)) (key : String) : Option (List String) :=
  match lookupField members key with
  | none => some []
  | some (Json.arr xs) =>
    (xs.take 5).mapM (fun j => match j with | Json.str s => some s | _ => none)
  | some _ => none

/-- Model of Python `float(x)` on a JSON value: numbers pass through,
booleans coerce to 1/0, numeric strings parse, anything else raises
(modelled as `none`). -/
def jsonToFloat : Json → Option ℚ
  | Json.num q => some q
  | Json.bool b => some (if b then 1 else 0)
  | Json.str s =>
    match parseNum (skipWs s.toList) with
    | some (q, rest) => if (skipWs rest).isEmpty then some q else none
    | none => none
  | _ => none

/-- The `winner = data.get('winner', 'defendant').lower()` step: a missing
key yields the default, a string is lowercased, a non-string value raises
`AttributeError` (modelled as `none`, which sends the caller to the
fallback path). -/
def getWinnerLower (members : List (String × Json)) : Option String :=
  match lookupField members ("winner") with
  | none => some ("defendant")
  | some (Json.str s) => some (lowerStr s)
  | some _ => none

/-- The `float(data.get('confidence_score', 0.7))` step. -/
def getConfRaw (members : List (String × Json)) : Option ℚ :=
  match lookupField members ("confidence_score") with
  | none => some (7 / 10)
  | some j => jsonToFloat j

/-- The structured (successful JSON) branch of `_parse_verdict`: winner
normalisation then `Verdict` construction with the clamped confidence
`min(1.0, max(0.0, …))`.  Any extraction failure is `none` and the caller
falls back to keyword parsing, exactly like the `except` clause. -/
def structuredVerdict (data : Json) : Option Verdict :=
  match data with
  | Json.obj members => do
    let w ← getWinnerLower members
    let rationale ← getStrD members ("rationale") ("")
    let kf ← getStrList5 members ("key_factors")
    let ca ← getStrList5 members ("cited_authorities")
    let cq ← getConfRaw members
    let conf := min (1 : ℚ) (max (0 : ℚ) cq)
    if w = "plaintiff" then
      some { outcome := VerdictOutcome.PLAINTIFF_WIN, winner := "plaintiff",
             rationale := rationale, key_factors := kf, cited_authorities := ca,
             confidence_score := conf }
    else if w = "settlement" then
      some { outcome := VerdictOutcome.SETTLEMENT, winner := "settlement",
             rationale := rationale, key_factors := kf, cited_authorities := ca,
             confidence_score := conf }
    else
      some { outcome := VerdictOutcome.DEFENSE_WIN, winner := "defendant",
             rationale := rationale, key_factors := kf, cited_authorities := ca,
             confidence_score := conf }
  | _ => none

/-- Model of `JudgeAgent._parse_verdict`: strip fences, try the structured JSON
path, and on any failure fall back to the keyword heuristic over the
(fence-stripped) lowercased text with confidence 0.5.  Note the fallback
reads the reassigned `response`, i.e. the fence-stripped text. -/
def parse_verdict (response : String) : Verdict :=
  let cleaned := stripFences response
  match (json_loads (pyStrip cleaned)).bind structuredVerdict with
  | some v => v
  | none =>
    let response_lower := lowerStr cleaned
    if strContains response_lower ("plaintiff") && strContains response_lower ("win") then
      { outcome := VerdictOutcome.PLAINTIFF_WIN, winner := "plaintiff", rationale := cleaned,
        key_factors := ["Evidence evaluation", "Legal analysis"], cited_authorities := [],
        confidence_score := 1 / 2 }
    else if strContains response_lower ("settlement") then
      { outcome := VerdictOutcome.SETTLEMENT, winner := "settlement", rationale := cleaned,
        key_factors := ["Evidence evaluation", "Legal analysis"], cited_authorities := [],
        confidence_score := 1 / 2 }
    else
      { outcome := VerdictOutcome.DEFENSE_WIN, winner := "defendant", rationale := cleaned,
        key_factors := ["Evidence evaluation", "Legal analysis"], cited_authorities := [],
        confidence_score := 1 / 2 }

/-! ## The argument-parsing cascade
(`ProsecutorAgent._parse_json_argument` / `DefenseAgent._parse_json_argument`,
`simulation.py` lines 261-303 and 481-523 — the two bodies are identical up
to a warning string).

The helpers `BaseAgent.repair_json` and `BaseAgent.extract_partial_json`
are code of this repository that is not under `src/` (only their callers in
`simulation.py` and the test `test_json_fixes_simple.py` appear), so they
are modelled from the spec (§4.3). -/

/-- Read a list-of-strings field with default `[]` and no truncation
(`data.get(key, [])`).  Typing caveats as in `getStrD`. -/
def getStrListD (members : List (String × Json)) (key : String) : Option (List String) :=
  match lookupField members key with
  | none => some []
  | some (Json.arr xs) =>
    xs.mapM (fun j => match j with | Json.str s => some s | _ => none)
  | some _ => none

/-- Modelled from the spec: `BaseAgent.repair_json` is missing from `src/`.
§4.3 mandates a repair chain that (1) parses the text as strict JSON and
(2) strips markdown code fences and retries; if both stages fail the
method raises, which the caller's `except` observes (modelled as `none`). -/
def repair_json (response : String) : Option Json :=
  match json_loads (pyStrip response) with
  | some v => some v
  | none => json_loads (pyStrip (stripFences response))

/-- Capture the body of a quoted JSON string that may be truncated before
its closing quote: stop at an unescaped quote or at end of input. -/
def captureQuoted : List Char → List Char
  | [] => []
  | '"' :: _ => []
  | '\\' :: rest =>
    match rest with
    | [] => []
    | e :: rest2 => (escChar e).getD e :: captureQuoted rest2
  | c :: rest => c :: captureQuoted rest

/-- Find `"key"` in raw (possibly malformed) text and return the quoted
string value that follows its colon, tolerating truncation. -/
def find_quoted_field (s key : String) : Option String :=
  match dropThroughSub s.toList ('"' :: key.toList ++ ['"']) with
  | none => none
  | some after =>
    match skipWs after with
    | ':' :: rest =>
      match skipWs rest with
      | '"' :: rest2 => some (String.mk (captureQuoted rest2))
      | _ => none
    | _ => none

/-- Modelled from the spec: `BaseAgent.extract_partial_json` is missing
from `src/`.  §4.3 stage (3) runs "a partial extraction pass that pulls
out recognizable fields (e.g., a quoted `"main_argument"` value) from
truncated/malformed text"; the result is a (possibly empty) partial
dictionary, whose truthiness the caller tests. -/
def extract_partial_json (response : String) : List (String × String) :=
  match find_quoted_field response ("main_argument") with
  | some v => [("main_argument", v)]
  | none => []

/-- The structured branch of `_parse_json_argument`: field extraction from
a successfully repaired JSON dict (`key_points` capped at 5).  A non-dict
value or a typing failure raises inside the `try`, sending the caller to
the fallback branches (modelled as `none`). -/
def structuredArgument (agent_name : String) (arg_type : ArgumentType)
    (data : Json) : Option LegalArgument :=
  match data with
  | Json.obj members => do
    let main ← getStrD members ("main_argument") ("")
    let cs ← getStrListD members ("cited_statutes")
    let cp ← getStrListD members ("cited_precedents")
    let kp ← getStrList5 members ("key_points")
    let conc ← getStrD members ("conclusion") ("")
    some { agent_name := agent_name, argument_type := arg_type, main_argument := main,
           cited_statutes := cs, cited_precedents := cp, key_points := kp,
           conclusion := conc }
  | _ => none

/-- Model of `_parse_json_argument` (source name; shared by `ProsecutorAgent` and
`DefenseAgent`): try `repair_json`, on failure try `extract_partial_json`
(whose hits fill `main_argument`, other fields taking the documented
defaults `[]`/`[response]`/`''`), and as a last resort wrap the raw
response.  Total by construction — no path raises to the caller. -/
def parse_json_argument (agent_name : String) (response : String)
    (arg_type : ArgumentType) : LegalArgument :=
  match (repair_json response).bind (structuredArgument agent_name arg_type) with
  | some arg => arg
  | none =>
    let partialData := extract_partial_json response
    if partialData.isEmpty then
      { agent_name := agent_name, argument_type := arg_type, main_argument := response,
        cited_statutes := [], cited_precedents := [], key_points := [response],
        conclusion := "" }
    else
      { agent_name := agent_name, argument_type := arg_type,
        main_argument := ((partialData.lookup ("main_argument")).getD response),
        cited_statutes := [], cited_precedents := [],
        key_points := [response], conclusion := "" }

/-! ## Statistical analysis (`EnhancedMonteCarloSimulation.analyze_results`
and its `_analyze_*` helpers, `montecarlo.py` lines 417-610).

Python `defaultdict`s are embedded as association lists updated in place
(`updAssoc`), which reproduces dict insertion order: a key first touched
later appears later, exactly as iteration over the Python dict would
visit it.  `np.mean` over `ℚ` is `sum / length`.  `np.std` returns the
square root of the population variance; `√` takes `ℚ` out of itself, so
the `confidence_std` field carries the variance (the value whose square
root the source stores).  No verified claim reads the numeric value of
that field, and since squaring is injective on nonnegatives the purity
statement is unaffected. -/

structure RoleStats where
  wins : ℕ
  total : ℕ
  win_rate : ℚ
  avg_confidence : ℚ
deriving Repr, DecidableEq

structure JudgeStats where
  wins_p : ℕ
  wins_d : ℕ
  total : ℕ
  plaintiff_rate : ℚ
  defense_rate : ℚ
deriving Repr, DecidableEq

structure StrategyPerformance where
  prosecutor : List (String × RoleStats)
  defense : List (String × RoleStats)
  judge : List (String × JudgeStats)
deriving Repr, DecidableEq

structure VenueStats where
  total : ℕ
  plaintiff_wins : ℕ
  plaintiff_win_rate : ℚ
  defense_win_rate : ℚ
deriving Repr, DecidableEq

structure EvidenceStats where
  total : ℕ
  plaintiff_wins : ℕ
  plaintiff_win_rate : ℚ
  avg_confidence : ℚ
deriving Repr, DecidableEq

structure MonteCarloAnalysis where
  total_simulations : ℕ
  plaintiff_wins : ℕ
  defense_wins : ℕ
  average_confidence : ℚ
  strategy_performance : StrategyPerformance
  factor_impact : List (String × ℚ)
  best_plaintiff_config : SimulationVariables
  best_defense_config : SimulationVariables
  /-- Carries the population variance of the confidences; the source
  stores its square root (see the section comment). -/
  confidence_std : ℚ
  execution_time_avg : ℚ
  venue_impact : List (String × VenueStats)
  evidence_impact : List (String × EvidenceStats)
  nda_impact : List (String × ℚ)
deriving Repr, DecidableEq

/-- Model of `np.mean` over rationals. -/
def qmean (xs : List ℚ) : ℚ := xs.sum / (xs.length : ℚ)

/-- Update-or-insert on an association list: the model of mutating one key
of a Python `defaultdict` (`d` is the default the factory would create). -/
def updAssoc (k : String) (d : α) (f : α → α) : List (String × α) → List (String × α)
  | [] => [(k, f d)]
  | kv :: rest => if kv.1 = k then (kv.1, f kv.2) :: rest else kv :: updAssoc k d f rest

/-- Plaintiff win rate of a result list (callers guard nonemptiness). -/
def pRate (rs : List SimulationResult) : ℚ :=
  ((rs.filter (fun r => decide (r.verdict.winner = "plaintiff"))).length : ℚ) / (rs.length : ℚ)

structure RoleAcc where
  wins : ℕ := 0
  total : ℕ := 0
  confidence : List ℚ := []

structure JudgeAcc where
  wins_p : ℕ := 0
  wins_d : ℕ := 0
  total : ℕ := 0

/-- Model of `_analyze_strategy_performance`: accumulate per-strategy tallies in
source iteration order, then compute win rates and mean confidences
(zero-guarded exactly as in the source). -/
def _analyze_strategy_performance (results : List SimulationResult) : StrategyPerformance :=
  let acc := results.foldl (fun acc r =>
    let pAcc := updAssoc r.vars.prosecutor_strategy ({} : RoleAcc)
      (fun a => { wins := if r.verdict.winner = "plaintiff" then a.wins + 1 else a.wins,
                  total := a.total + 1,
                  confidence := a.confidence ++ [r.verdict.confidence_score] }) acc.1
    let dAcc := updAssoc r.vars.defense_strategy ({} : RoleAcc)
      (fun a => { wins := if r.verdict.winner = "defendant" then a.wins + 1 else a.wins,
                  total := a.total + 1,
                  confidence := a.confidence ++ [r.verdict.confidence_score] }) acc.2.1
    let jAcc := updAssoc r.vars.judge_temperament ({} : JudgeAcc)
      (fun a => { wins_p := if r.verdict.winner = "plaintiff" then a.wins_p + 1 else a.wins_p,
                  wins_d := if r.verdict.winner = "plaintiff" then a.wins_d else a.wins_d + 1,
                  total := a.total + 1 }) acc.2.2
    (pAcc, dAcc, jAcc))
    (([], [], []) : List (String × RoleAcc) × List (String × RoleAcc) × List (String × JudgeAcc))
  let finRole := fun (kv : String × RoleAcc) =>
    (kv.1, ({ wins := kv.2.wins, total := kv.2.total,
              win_rate := if 0 < kv.2.total then (kv.2.wins : ℚ) / (kv.2.total : ℚ) else 0,
              avg_confidence := if kv.2.confidence.isEmpty then 0 else qmean kv.2.confidence } : RoleStats))
  let finJudge := fun (kv : String × JudgeAcc) =>
    (kv.1, ({ wins_p := kv.2.wins_p, wins_d := kv.2.wins_d, total := kv.2.total,
              plaintiff_rate := if 0 < kv.2.total then (kv.2.wins_p : ℚ) / (kv.2.total : ℚ) else 0,
              defense_rate := if 0 < kv.2.total then (kv.2.wins_d : ℚ) / (kv.2.total : ℚ) else 0 } : JudgeStats))
  { prosecutor := acc.1.map finRole, defense := acc.2.1.map finRole, judge := acc.2.2.map finJudge }

/-- Model of `_analyze_factor_impact`: conditional plaintiff win rates over the
auxiliary-factor partitions, keys inserted in source order and only when
the partition is nonempty. -/
def _analyze_factor_impact (results : List SimulationResult) : List (String × ℚ) :=
  let short_time := results.filter (fun r => decide (r.vars.time_since_departure ≤ 3))
  let long_time := results.filter (fun r => decide (6 < r.vars.time_since_departure))
  let direct_comp := results.filter (fun r => decide (r.vars.competitor_relationship = "direct"))
  let no_comp := results.filter (fun r => decide (r.vars.competitor_relationship = "none"))
  let hostile := results.filter (fun r => decide (r.vars.defendant_cooperation = "hostile"))
  let cooperative := results.filter (fun r => decide (r.vars.defendant_cooperation = "cooperative"))
  (if short_time.isEmpty then [] else [("short_departure_time", pRate short_time)]) ++
  (if long_time.isEmpty then [] else [("long_departure_time", pRate long_time)]) ++
  (if direct_comp.isEmpty then [] else [("direct_competitor", pRate direct_comp)]) ++
  (if no_comp.isEmpty then [] else [("no_competition", pRate no_comp)]) ++
  (if hostile.isEmpty then [] else [("hostile_defendant", pRate hostile)]) ++
  (if cooperative.isEmpty then [] else [("cooperative_defendant", pRate cooperative)])

structure VenueAcc where
  total : ℕ := 0
  plaintiff_wins : ℕ := 0

/-- Model of `_analyze_venue_impact`. -/
def _analyze_venue_impact (results : List SimulationResult) : List (String × VenueStats) :=
  let acc := results.foldl (fun acc r =>
    updAssoc r.vars.venue_bias ({} : VenueAcc)
      (fun a => { total := a.total + 1,
                  plaintiff_wins := if r.verdict.winner = "plaintiff" then a.plaintiff_wins + 1 else a.plaintiff_wins }) acc)
    ([] : List (String × VenueAcc))
  acc.map (fun kv =>
    let p := if 0 < kv.2.total then (kv.2.plaintiff_wins : ℚ) / (kv.2.total : ℚ) else 0
    (kv.1, ({ total := kv.2.total, plaintiff_wins := kv.2.plaintiff_wins,
              plaintiff_win_rate := p, defense_win_rate := 1 - p } : VenueStats)))

structure EvAcc where
  total : ℕ := 0
  plaintiff_wins : ℕ := 0
  avg_confidence : List ℚ := []

/-- Model of `_analyze_evidence_impact`. -/
def _analyze_evidence_impact (results : List SimulationResult) : List (String × EvidenceStats) :=
  let acc := results.foldl (fun acc r =>
    updAssoc r.vars.evidence_strength ({} : EvAcc)
      (fun a => { total := a.total + 1,
                  plaintiff_wins := if r.verdict.winner = "plaintiff" then a.plaintiff_wins + 1 else a.plaintiff_wins,
                  avg_confidence := a.avg_confidence ++ [r.verdict.confidence_score] }) acc)
    ([] : List (String × EvAcc))
  acc.map (fun kv =>
    (kv.1, ({ total := kv.2.total, plaintiff_wins := kv.2.plaintiff_wins,
              plaintiff_win_rate := if 0 < kv.2.total then (kv.2.plaintiff_wins : ℚ) / (kv.2.total : ℚ) else 0,
              avg_confidence := if kv.2.avg_confidence.isEmpty then 0 else qmean kv.2.avg_confidence } : EvidenceStats)))

/-- Model of `_analyze_nda_impact`. -/
def _analyze_nda_impact (results : List SimulationResult) : List (String × ℚ) :=
  let with_nda := results.filter (fun r => r.vars.has_nda)
  let without_nda := results.filter (fun r => !r.vars.has_nda)
  (if with_nda.isEmpty then [] else [("with_nda_win_rate", pRate with_nda)]) ++
  (if without_nda.isEmpty then [] else [("without_nda_win_rate", pRate without_nda)]) ++
  (if with_nda.isEmpty || without_nda.isEmpty then []
   else [("nda_impact_delta", pRate with_nda - pRate without_nda)])

/-- Python's builtin `max(xs, key=k)`: start from the first element and
replace the current best only on a strictly larger key, so the first
maximal element wins ties.  `b` is the first element, the list the rest. -/
def pymax (key : α → ℚ) (b : α) : List α → α
  | [] => b
  | x :: xs => pymax key (if key b < key x then x else b) xs

/-- The scoring key of `_find_best_config`:
`(1 if r.verdict.winner == side else 0) * r.verdict.confidence_score`. -/
def bestKey (side : String) (r : SimulationResult) : ℚ :=
  (if r.verdict.winner = side then 1 else 0) * r.verdict.confidence_score

/-- Model of `_find_best_config`: argmax of `bestKey` via Python `max` (first
maximal element wins).  `none` models the `ValueError` Python `max` raises
on an empty sequence; `analyze_results` guards nonemptiness before
calling. -/
def _find_best_config (for_side : String) (results : List SimulationResult) :
    Option SimulationVariables :=
  let side := if for_side = "plaintiff" then "plaintiff" else "defendant"
  match results with
  | [] => none
  | r :: rest => some (pymax (bestKey side) r rest).vars

/-- Model of `analyze_results`: the pure reduction of a result list to a
`MonteCarloAnalysis`; raises (models as `error`) on an empty list. -/
def analyze_results (results : List SimulationResult) : Except String MonteCarloAnalysis :=
  match results with
  | [] => Except.error ("No simulation results to analyze")
  | r :: rest =>
    let rs := r :: rest
    let plaintiff_wins := (rs.filter (fun x => decide (x.verdict.winner = "plaintiff"))).length
    let defense_wins := (rs.filter (fun x => decide (x.verdict.winner = "defendant"))).length
    let confidences := rs.map (fun x => x.verdict.confidence_score)
    let avg_confidence := qmean confidences
    let std_sq := qmean (confidences.map (fun c => (c - avg_confidence) ^ 2))
    let execution_times := rs.map (fun x => x.execution_time)
    Except.ok
      { total_simulations := rs.length,
        plaintiff_wins := plaintiff_wins,
        defense_wins := defense_wins,
        average_confidence := avg_confidence,
        strategy_performance := _analyze_strategy_performance rs,
        factor_impact := _analyze_factor_impact rs,
        best_plaintiff_config := (_find_best_config ("plaintiff") rs).getD {},
        best_defense_config := (_find_best_config ("defendant") rs).getD {},
        confidence_std := std_sq,
        execution_time_avg := qmean execution_times,
        venue_impact := _analyze_venue_impact rs,
        evidence_impact := _analyze_evidence_impact rs,
        nda_impact := _analyze_nda_impact rs }

/-! ## The Monte Carlo engine loop
(`EnhancedMonteCarloSimulation.__init__` / `create_variant_evidence` /
`run_single_simulation` / `run_simulations`, `montecarlo.py` lines
164-415).

The engine's mutable attributes become the explicit `MCState`.  The
external Gemini-backed agents are oracles in a `TrialEnv`: each agent
method either returns a structured value or raises (`Except.error`),
which is exactly the interface the engine code observes.  `varsFor i`
abstracts `SimulationVariables().randomize(**config)` — the i-th trial's
sampled variable assignment — and `execTime i` the wall-clock duration
measurement of trial `i`. -/

structure TrialEnv where
  prosecutorOpen : CaseEvidence → Except String LegalArgument
  defenseOpen : CaseEvidence → Except String LegalArgument
  prosecutorRebut : LegalArgument → CaseEvidence → Except String LegalArgument
  defenseRebut : LegalArgument → CaseEvidence → Except String LegalArgument
  judgeEvaluate : List LegalArgument → List LegalArgument → CaseEvidence → Except String Verdict
  research : Except String CaseEvidence
  varsFor : ℕ → SimulationVariables
  execTime : ℕ → ℚ

structure MCState where
  base_evidence : Option CaseEvidence := none
  results : List SimulationResult := []
  analysis : Option MonteCarloAnalysis := none
deriving Repr, DecidableEq

/-- Model of `create_variant_evidence`, core part (base evidence present).  The
`CaseEvidence(...)` construction passes the base's `facts`,
`defendant_claims` and `disputed_facts` **by reference** (Python lists),
so the subsequent conditional `append`s mutate the base evidence's lists
too; the mutation is embedded by returning the updated base alongside the
variant.  `statutes`/`precedents` are built by slicing
(`self.researched_statutes[:n]`, lists that alias
`self.base_evidence.statutes`), which copies, so truncation does not feed
back.  The first component is the returned variant, the second the base
evidence as it stands after the call. -/
def create_variant_evidence (base : CaseEvidence) (vars : SimulationVariables) :
    CaseEvidence × CaseEvidence :=
  let coopFacts :=
    if vars.defendant_cooperation = "cooperative" then ["Defendant has cooperated with investigation"] else []
  let coopDisputed :=
    if vars.defendant_cooperation = "hostile" then ["Defendant refuses to cooperate with discovery"] else []
  let timeClaims :=
    if 6 < vars.time_since_departure then
      ["Significant time gap (" ++ toString vars.time_since_departure ++ " months) weakens causation"]
    else []
  let compClaims :=
    if vars.competitor_relationship = "none" then ["Companies are not direct competitors"] else []
  let facts' := base.facts ++ coopFacts
  let defendant_claims' := base.defendant_claims ++ timeClaims ++ compClaims
  let disputed_facts' := base.disputed_facts ++ coopDisputed
  let variant : CaseEvidence :=
    { case_description := base.case_description,
      jurisdiction := base.jurisdiction,
      has_nda := vars.has_nda,
      evidence_strength := vars.evidence_strength,
      venue_bias := vars.venue_bias,
      statutes := base.statutes.take vars.num_statutes_cited,
      precedents := base.precedents.take vars.num_precedents_cited,
      facts := facts',
      documents := base.documents,
      plaintiff_claims := base.plaintiff_claims,
      defendant_claims := defendant_claims',
      disputed_facts := disputed_facts' }
  let base' : CaseEvidence :=
    { base with facts := facts', defendant_claims := defendant_claims',
                disputed_facts := disputed_facts' }
  (variant, base')

/-- Model of `create_variant_evidence` at engine level, including the
`ValueError("Must run research_case() first")` raised when no base
evidence exists. -/
def create_variant_evidence_mc (st : MCState) (vars : SimulationVariables) :
    Except String (CaseEvidence × MCState) :=
  match st.base_evidence with
  | none => Except.error ("Must run research_case() first")
  | some base =>
    let p := create_variant_evidence base vars
    Except.ok (p.1, { st with base_evidence := some p.2 })

/-- One observable agent interaction of the trial protocol, recorded in
execution order.  Rebuttal events carry the opponent argument they were
asked to address. -/
inductive TrialEvent where
  | prosecutorOpening (arg : LegalArgument) : TrialEvent
  | defenseOpening (arg : LegalArgument) : TrialEvent
  | prosecutorRebuttal (target arg : LegalArgument) : TrialEvent
  | defenseRebuttal (target arg : LegalArgument) : TrialEvent
  | verdictIssued (v : Verdict) : TrialEvent
deriving Repr, DecidableEq

/-- The trial protocol inside `run_single_simulation`'s `try` block
(phases 1-3), instrumented with the ordered list of completed agent
interactions.  The first component is what the Python block produces (or
the exception it raises); the second is the event trace up to the point
reached. -/
def run_trial_core_traced (env : TrialEnv) (evidence : CaseEvidence) :
    Except String (List LegalArgument × List LegalArgument × Verdict) × List TrialEvent :=
  match env.prosecutorOpen evidence with
  | Except.error e => (Except.error e, [])
  | Except.ok prosecutor_opening =>
    match env.defenseOpen evidence with
    | Except.error e => (Except.error e, [TrialEvent.prosecutorOpening prosecutor_opening])
    | Except.ok defense_opening =>
      match env.prosecutorRebut defense_opening evidence with
      | Except.error e =>
        (Except.error e, [TrialEvent.prosecutorOpening prosecutor_opening,
                          TrialEvent.defenseOpening defense_opening])
      | Except.ok prosecutor_rebuttal =>
        match env.defenseRebut prosecutor_opening evidence with
        | Except.error e =>
          (Except.error e, [TrialEvent.prosecutorOpening prosecutor_opening,
                            TrialEvent.defenseOpening defense_opening,
                            TrialEvent.prosecutorRebuttal defense_opening prosecutor_rebuttal])
        | Except.ok defense_rebuttal =>
          let prosecutor_args := [prosecutor_opening, prosecutor_rebuttal]
          let defense_args := [defense_opening, defense_rebuttal]
          match env.judgeEvaluate prosecutor_args defense_args evidence with
          | Except.error e =>
            (Except.error e, [TrialEvent.prosecutorOpening prosecutor_opening,
                              TrialEvent.defenseOpening defense_opening,
                              TrialEvent.prosecutorRebuttal defense_opening prosecutor_rebuttal,
                              TrialEvent.defenseRebuttal prosecutor_opening defense_rebuttal])
          | Except.ok verdict =>
            (Except.ok (prosecutor_args, defense_args, verdict),
             [TrialEvent.prosecutorOpening prosecutor_opening,
              TrialEvent.defenseOpening defense_opening,
              TrialEvent.prosecutorRebuttal defense_opening prosecutor_rebuttal,
              TrialEvent.defenseRebuttal prosecutor_opening defense_rebuttal,
              TrialEvent.verdictIssued verdict])

/-- The trial protocol without the instrumentation. -/
def run_trial_core (env : TrialEnv) (evidence : CaseEvidence) :
    Except String (List LegalArgument × List LegalArgument × Verdict) :=
  (run_trial_core_traced env evidence).1

/-- The synthetic result `run_single_simulation`'s `except` clause builds:
defense wins with confidence 0.0, the error message noted in the
rationale, no arguments, zero execution time. -/
def mkErrorResult (simulation_id : ℕ) (vars : SimulationVariables) (msg : String) :
    SimulationResult :=
  { simulation_id := simulation_id, vars := vars,
    verdict := { outcome := VerdictOutcome.DEFENSE_WIN, winner := "defendant",
                 rationale := "Simulation error: " ++ msg,
                 key_factors := ["Error in simulation"], cited_authorities := [],
                 confidence_score := 0 },
    prosecutor_arguments := [], defense_arguments := [], execution_time := 0 }

/-- Model of `run_single_simulation`: derive the variant (mutating the shared base
lists), run the protocol, and catch every exception into the synthetic
defense-win result.  When the variant derivation itself raises, the state
is untouched; when an agent call raises, the derivation's mutation of the
base evidence has already happened and persists. -/
def run_single_simulation (env : TrialEnv) (st : MCState) (simulation_id : ℕ)
    (vars : SimulationVariables) : SimulationResult × MCState :=
  match create_variant_evidence_mc st vars with
  | Except.error e => (mkErrorResult simulation_id vars e, st)
  | Except.ok (evidence, st') =>
    match run_trial_core env evidence with
    | Except.ok (prosecutor_args, defense_args, verdict) =>
      ({ simulation_id := simulation_id, vars := vars, verdict := verdict,
         prosecutor_arguments := prosecutor_args, defense_arguments := defense_args,
         execution_time := env.execTime simulation_id }, st')
    | Except.error e => (mkErrorResult simulation_id vars e, st')

/-- The `for i in range(1, n_simulations + 1)` loop of `run_simulations`:
trial `i` uses the freshly randomized variables `env.varsFor i` and the
results are collected in order.  The state threads through because each
variant derivation mutates the shared base evidence. -/
def run_sims_from (env : TrialEnv) : MCState → ℕ → ℕ → List SimulationResult × MCState
  | st, _, 0 => ([], st)
  | st, i, Nat.succ k =>
    let p := run_single_simulation env st i (env.varsFor i)
    let q := run_sims_from env p.2 (i + 1) k
    (p.1 :: q.1, q.2)

/-- Model of `run_simulations`: research the case if not yet done (the one step
whose exceptions are not caught), reset `self.results`, run the trial
loop, and analyze.  Returns the analysis together with the final engine
state. -/
def run_simulations (env : TrialEnv) (st : MCState) (n_simulations : ℕ) :
    Except String (MonteCarloAnalysis × MCState) :=
  let researched : Except String MCState :=
    match st.base_evidence with
    | some _ => Except.ok st
    | none =>
      match env.research with
      | Except.ok ev => Except.ok { st with base_evidence := some ev }
      | Except.error e => Except.error e
  match researched with
  | Except.error e => Except.error e
  | Except.ok st1 =>
    let p := run_sims_from env { st1 with results := [] } 1 n_simulations
    match analyze_results p.1 with
    | Except.error e => Except.error e
    | Except.ok analysis =>
      Except.ok (analysis, { p.2 with results := p.1, analysis := some analysis })

/-! ## The spec's description of the verdict fallback heuristic

For the refinement comparison of claim C9 only: this definition follows
the SPEC'S WORDS (§4.3 "Verdict winner determination"), not the source.
The source's actual fallback lives inside `parse_verdict` above. -/

/-- Number of positions in `hay` where `pat` starts. -/
def countOccur (hay pat : List Char) : ℕ :=
  match hay with
  | [] => 0
  | _ :: t => (if pat.isPrefixOf hay then 1 else 0) + countOccur t pat

/-- The fallback winner determination as the spec (and claim C9) describe
it: scan for the phrases "find for the plaintiff" / "find for the
defendant"; if neither matches, count occurrences of plaintiff- vs
defendant-adjacent language and pick the side with more hits (defendant
on ties).  Defined from the claim's words for comparison with the
source's actual fallback. -/
def claimedFallbackWinner (text : String) : String :=
  let tl := lowerStr text
  if strContains tl ("find for the plaintiff") then "plaintiff"
  else if strContains tl ("find for the defendant") then "defendant"
  else if countOccur tl.toList (String.toList ("plaintiff")) >
          countOccur tl.toList (String.toList ("defendant")) then "plaintiff"
  else "defendant"

/-! ## Concrete fixtures used by the witness theorems -/

def sampleEvidence : CaseEvidence := { case_description := "c" }

def sampleState : MCState := { base_evidence := some sampleEvidence }

def mkArg (n m : String) : LegalArgument :=
  { agent_name := n, argument_type := ArgumentType.OPENING, main_argument := m,
    cited_statutes := [], cited_precedents := [], key_points := [], conclusion := "" }

def sampleVerdict : Verdict :=
  { outcome := VerdictOutcome.PLAINTIFF_WIN, winner := "plaintiff", rationale := "r",
    key_factors := [], cited_authorities := [], confidence_score := 1 }

/-- An environment whose agents always answer with fixed arguments. -/
def okEnv : TrialEnv :=
  { prosecutorOpen := fun _ => Except.ok (mkArg ("Prosecutor") ("p-open")),
    defenseOpen := fun _ => Except.ok (mkArg ("Defense") ("d-open")),
    prosecutorRebut := fun _ _ => Except.ok (mkArg ("Prosecutor") ("p-rebut")),
    defenseRebut := fun _ _ => Except.ok (mkArg ("Defense") ("d-rebut")),
    judgeEvaluate := fun _ _ _ => Except.ok sampleVerdict,
    research := Except.error ("network down"),
    varsFor := fun _ => {},
    execTime := fun _ => 1 }

/-- An environment whose prosecutor agent always raises. -/
def failEnv : TrialEnv :=
  { okEnv with prosecutorOpen := fun _ => Except.error ("completion timeout") }

/-- A simulation result fixture for the analysis witnesses. -/
def mkRes (i : ℕ) (w : String) (c : ℚ) (ps : String) : SimulationResult :=
  { simulation_id := i, vars := { prosecutor_strategy := ps },
    verdict := { outcome := VerdictOutcome.DEFENSE_WIN, winner := w, rationale := "",
                 key_factors := [], cited_authorities := [], confidence_score := c },
    prosecutor_arguments := [], defense_arguments := [], execution_time := 0 }

/-! ## Helper lemmas -/

/-- Any verdict the structured branch produces has its confidence clamped
into `[0, 1]` by the `min(1.0, max(0.0, …))` expression. -/
theorem structuredVerdict_conf_bounds (j : Json) (v : Verdict)
    (h : structuredVerdict j = some v) :
    0 ≤ v.confidence_score ∧ v.confidence_score ≤ 1 := by
  cases j with
  | obj members =>
    simp only [structuredVerdict, Option.bind_eq_bind, bind, Option.bind_eq_some] at h
    obtain ⟨w, _, h⟩ := h
    obtain ⟨ra, _, h⟩ := h
    obtain ⟨kf, _, h⟩ := h
    obtain ⟨ca, _, h⟩ := h
    obtain ⟨cq, _, h⟩ := h
    have hb : (0 : ℚ) ≤ min (1 : ℚ) (max (0 : ℚ) cq) ∧ min (1 : ℚ) (max (0 : ℚ) cq) ≤ 1 :=
      ⟨le_min zero_le_one (le_max_left 0 cq), min_le_left 1 _⟩
    split_ifs at h <;> (cases h; exact hb)
  | null => simp [structuredVerdict] at h
  | bool b => simp [structuredVerdict] at h
  | num q => simp [structuredVerdict] at h
  | str s => simp [structuredVerdict] at h
  | arr xs => simp [structuredVerdict] at h

/-- The loop of `run_simulations` produces exactly as many results as it
is asked to run, whatever the environment and starting state. -/
theorem run_sims_from_length (env : TrialEnv) :
    ∀ (k : ℕ) (st : MCState) (i : ℕ), (run_sims_from env st i k).1.length = k := by
  intro k
  induction k with
  | zero => intro st i; rfl
  | succ k ih =>
    intro st i
    simp only [run_sims_from, List.length_cons]
    rw [ih]

/-- Python `max(b :: xs, key=key)` returns an element of the list that is
first among the maximal ones: the list splits around the returned element
with every earlier element strictly smaller, and no element larger. -/
theorem pymax_spec (key : α → ℚ) :
    ∀ (xs : List α) (b : α),
      ∃ l1 l2, b :: xs = l1 ++ pymax key b xs :: l2 ∧
        (∀ y ∈ l1, key y < key (pymax key b xs)) ∧
        (∀ y ∈ b :: xs, key y ≤ key (pymax key b xs)) := by
  intro xs
  induction xs with
  | nil =>
    intro b
    refine ⟨[], [], rfl, by simp, ?_⟩
    intro y hy
    simp only [pymax, List.mem_singleton] at hy ⊢
    rw [hy]
  | cons x xs ih =>
    intro b
    rw [pymax]
    by_cases h : key b < key x
    · rw [if_pos h]
      obtain ⟨l1, l2, hsplit, hlt, hle⟩ := ih x
      have hxle : key x ≤ key (pymax key x xs) := hle x (List.mem_cons_self x xs)
      refine ⟨b :: l1, l2, ?_, ?_, ?_⟩
      · rw [List.cons_append, ← hsplit]
      · intro y hy
        rcases List.mem_cons.1 hy with rfl | hy'
        · exact lt_of_lt_of_le h hxle
        · exact hlt y hy'
      · intro y hy
        rcases List.mem_cons.1 hy with rfl | hy'
        · exact le_of_lt (lt_of_lt_of_le h hxle)
        · exact hle y hy'
    · rw [if_neg h]
      have hxb : key x ≤ key b := le_of_not_lt h
      obtain ⟨l1, l2, hsplit, hlt, hle⟩ := ih b
      have hble : key b ≤ key (pymax key b xs) := hle b (List.mem_cons_self b xs)
      cases l1 with
      | nil =>
        have hpb : pymax key b xs = b := by
          have := hsplit
          simp only [List.nil_append, List.cons.injEq] at this
          exact this.1.symm
        refine ⟨[], x :: xs, ?_, by simp, ?_⟩
        · rw [hpb]; rfl
        · intro y hy
          rw [hpb]
          rcases List.mem_cons.1 hy with rfl | hy'
          · exact le_refl _
          · rcases List.mem_cons.1 hy' with rfl | hy''
            · exact hxb
            · have : key y ≤ key (pymax key b xs) := hle y (List.mem_cons_of_mem b hy'')
              rw [hpb] at this; exact this
      | cons a l1' =>
        set p := pymax key b xs with hp
        have ha : a = b ∧ xs = l1' ++ p :: l2 := by
          have := hsplit
          simp only [List.cons_append, List.cons.injEq] at this
          exact ⟨this.1.symm, this.2⟩
        have hbp : key b < key p := by
          have hma : a ∈ a :: l1' := List.mem_cons_self a l1'
          have := hlt a hma
          rw [ha.1] at this
          exact this
        refine ⟨b :: x :: l1', l2, ?_, ?_, ?_⟩
        · conv_lhs => rw [ha.2]
          simp [List.cons_append]
        · intro y hy
          rcases List.mem_cons.1 hy with rfl | hy'
          · exact hbp
          · rcases List.mem_cons.1 hy' with rfl | hy''
            · exact lt_of_le_of_lt hxb hbp
            · exact hlt y (List.mem_cons_of_mem a hy'')
        · intro y hy
          rcases List.mem_cons.1 hy with rfl | hy'
          · exact hble
          · rcases List.mem_cons.1 hy' with rfl | hy''
            · exact le_trans hxb hble
            · exact hle y (List.mem_cons_of_mem b hy'')

/-! ## Claim theorems -/

/-- C2: the claim states that `create_variant_evidence` leaves the base
Evidence's `facts`/`defendant_claims`/`disputed_facts` unchanged (deep
copies, no aliasing between variants).  The code passes those lists by
reference and appends to them, so deriving a variant with cooperative
defendant mutates the base, and a second variant derived afterwards —
with variables that append nothing to `facts` themselves — already
contains the entry appended for the first variant.  This theorem
evaluates the embedded code at that failing input. -/
theorem C2_variant_aliasing_bug :
    ((create_variant_evidence sampleEvidence { defendant_cooperation := "cooperative" }).2.facts
        ≠ sampleEvidence.facts) ∧
    ("Defendant has cooperated with investigation" ∈
      (create_variant_evidence
        (create_variant_evidence sampleEvidence { defendant_cooperation := "cooperative" }).2
        ({} : SimulationVariables)).1.facts) := by
  refine ⟨by decide, by decide⟩

/-- C3: the argument-parsing cascade handles (a) valid JSON, (b) JSON in
markdown fences, (c) truncated JSON missing its closing brace, (d) pure
prose, returning a `LegalArgument` with `main_argument` populated in all
four cases.  `parse_json_argument` is total by construction (every stage's
failure falls through to the next; nothing escapes to the caller), which
embeds the "without raising" part of the claim; the conjuncts check the
populated `main_argument` on a representative of each of the four input
classes. -/
theorem C3_json_repair_cascade :
    (parse_json_argument ("Prosecutor")
        ("\x7b\"main_argument\": \"The NDA was breached.\", \"key_points\": [\"a\", \"b\"], \"cited_statutes\": [], \"cited_precedents\": [], \"conclusion\": \"Find for plaintiff.\"\x7d")
        ArgumentType.OPENING).main_argument = "The NDA was breached." ∧
    (parse_json_argument ("Prosecutor") ("```json\n\x7b\"main_argument\": \"Fenced arg.\"\x7d\n```")
        ArgumentType.OPENING).main_argument = "Fenced arg." ∧
    (parse_json_argument ("Defense") ("\x7b\"main_argument\": \"Truncated claim")
        ArgumentType.REBUTTAL).main_argument = "Truncated claim" ∧
    (parse_json_argument ("Defense") ("The court should rule for the defense.")
        ArgumentType.OPENING).main_argument = "The court should rule for the defense." := by
  refine ⟨rfl, rfl, rfl, rfl⟩

/-- C4: every verdict `_parse_verdict` produces has
`confidence_score ∈ [0, 1]`, for every response text; an out-of-range
structured value (95) is clamped to 1, a missing `confidence_score` on
the structured path defaults to 0.7, and the unstructured fallback sets
0.5. -/
theorem C4_confidence_bound :
    (∀ response : String,
        0 ≤ (parse_verdict response).confidence_score ∧
        (parse_verdict response).confidence_score ≤ 1) ∧
    (parse_verdict ("\x7b\"winner\": \"plaintiff\", \"confidence_score\": 95\x7d")).confidence_score = 1 ∧
    (parse_verdict ("\x7b\"winner\": \"plaintiff\"\x7d")).confidence_score = 7 / 10 ∧
    (parse_verdict ("The court rules.")).confidence_score = 1 / 2 := by
  refine ⟨?_, ?_, ?_, rfl⟩
  case refine_2 =>
    have h : (parse_verdict ("\x7b\"winner\": \"plaintiff\", \"confidence_score\": 95\x7d")).confidence_score
        = min (1 : ℚ) (max 0 ((95 : ℕ) : ℚ)) := rfl
    rw [h]; norm_num
  case refine_3 =>
    have h : (parse_verdict ("\x7b\"winner\": \"plaintiff\"\x7d")).confidence_score
        = min (1 : ℚ) (max 0 (7 / 10)) := rfl
    rw [h]; norm_num
  intro response
  simp only [parse_verdict]
  split
  · next v hv =>
    obtain ⟨j, _, hj⟩ := Option.bind_eq_some.1 hv
    exact structuredVerdict_conf_bounds j v hj
  · split_ifs <;> exact ⟨by norm_num, by norm_num⟩

/-- The winner normalisation inside the structured verdict branch: there
is always an extracted lowercased winner string, and the produced verdict
matches it through the plaintiff/settlement/else cascade. -/
theorem structuredVerdict_winner (members : List (String × Json)) (v : Verdict)
    (h2 : structuredVerdict (Json.obj members) = some v) :
    ∃ w, getWinnerLower members = some w ∧
      ((w = "plaintiff" ∧ v.winner = "plaintiff" ∧ v.outcome = VerdictOutcome.PLAINTIFF_WIN) ∨
       (w ≠ "plaintiff" ∧ w = "settlement" ∧ v.winner = "settlement" ∧ v.outcome = VerdictOutcome.SETTLEMENT) ∨
       (w ≠ "plaintiff" ∧ w ≠ "settlement" ∧ v.winner = "defendant" ∧ v.outcome = VerdictOutcome.DEFENSE_WIN)) := by
  simp only [structuredVerdict, Option.bind_eq_bind, bind, Option.bind_eq_some] at h2
  obtain ⟨w, hw, h2⟩ := h2
  obtain ⟨ra, _, h2⟩ := h2
  obtain ⟨kf, _, h2⟩ := h2
  obtain ⟨ca, _, h2⟩ := h2
  obtain ⟨cq, _, h2⟩ := h2
  refine ⟨w, hw, ?_⟩
  split_ifs at h2 with hp hs
  · left; cases h2; exact ⟨hp, rfl, rfl⟩
  · right; left; cases h2; exact ⟨hp, hs, rfl, rfl⟩
  · right; right; cases h2; exact ⟨hp, hs, rfl, rfl⟩

/-- C7: with research done, the derived variant consists of the first
`num_statutes_cited`/`num_precedents_cited` researched statutes and
precedents in original order, takes `has_nda`/`evidence_strength`/
`venue_bias` from the variables, carries each of the four conditional
narrative appends exactly when its condition holds, and the derivation
is deterministic on identical inputs. -/
theorem C7_variant_derivation (st : MCState) (base : CaseEvidence) (vars : SimulationVariables)
    (hbase : st.base_evidence = some base) :
    ∃ variant st', create_variant_evidence_mc st vars = Except.ok (variant, st') ∧
      variant.statutes = base.statutes.take vars.num_statutes_cited ∧
      variant.precedents = base.precedents.take vars.num_precedents_cited ∧
      variant.has_nda = vars.has_nda ∧
      variant.evidence_strength = vars.evidence_strength ∧
      variant.venue_bias = vars.venue_bias ∧
      (vars.defendant_cooperation = "hostile" →
        variant.disputed_facts = base.disputed_facts ++ ["Defendant refuses to cooperate with discovery"]) ∧
      (vars.defendant_cooperation ≠ "hostile" → variant.disputed_facts = base.disputed_facts) ∧
      (vars.defendant_cooperation = "cooperative" →
        variant.facts = base.facts ++ ["Defendant has cooperated with investigation"]) ∧
      (vars.defendant_cooperation ≠ "cooperative" → variant.facts = base.facts) ∧
      variant.defendant_claims = base.defendant_claims ++
        (if 6 < vars.time_since_departure then
          ["Significant time gap (" ++ toString vars.time_since_departure ++ " months) weakens causation"]
         else []) ++
        (if vars.competitor_relationship = "none" then ["Companies are not direct competitors"] else []) ∧
      create_variant_evidence_mc st vars = create_variant_evidence_mc st vars := by
  refine ⟨(create_variant_evidence base vars).1,
    { st with base_evidence := some (create_variant_evidence base vars).2 },
    ?_, ?_, ?_, ?_, ?_, ?_, ?_, ?_, ?_, ?_, ?_, rfl⟩
  · simp [create_variant_evidence_mc, hbase]
  · simp [create_variant_evidence]
  · simp [create_variant_evidence]
  · simp [create_variant_evidence]
  · simp [create_variant_evidence]
  · simp [create_variant_evidence]
  · intro h; simp [create_variant_evidence, h]
  · intro h; simp [create_variant_evidence, h]
  · intro h; simp [create_variant_evidence, h]
  · intro h; simp [create_variant_evidence, h]
  · simp [create_variant_evidence]

/-- Witness for C7 at a concrete state and variable assignment. -/
theorem C7_witness :
    (sampleState.base_evidence = some sampleEvidence) ∧
    (∃ variant st', create_variant_evidence_mc sampleState ({} : SimulationVariables) = Except.ok (variant, st') ∧
      variant.statutes = sampleEvidence.statutes.take ({} : SimulationVariables).num_statutes_cited ∧
      variant.precedents = sampleEvidence.precedents.take ({} : SimulationVariables).num_precedents_cited ∧
      variant.has_nda = ({} : SimulationVariables).has_nda ∧
      variant.evidence_strength = ({} : SimulationVariables).evidence_strength ∧
      variant.venue_bias = ({} : SimulationVariables).venue_bias ∧
      (({} : SimulationVariables).defendant_cooperation = "hostile" →
        variant.disputed_facts = sampleEvidence.disputed_facts ++ ["Defendant refuses to cooperate with discovery"]) ∧
      (({} : SimulationVariables).defendant_cooperation ≠ "hostile" →
        variant.disputed_facts = sampleEvidence.disputed_facts) ∧
      (({} : SimulationVariables).defendant_cooperation = "cooperative" →
        variant.facts = sampleEvidence.facts ++ ["Defendant has cooperated with investigation"]) ∧
      (({} : SimulationVariables).defendant_cooperation ≠ "cooperative" →
        variant.facts = sampleEvidence.facts) ∧
      variant.defendant_claims = sampleEvidence.defendant_claims ++
        (if 6 < ({} : SimulationVariables).time_since_departure then
          ["Significant time gap (" ++ toString ({} : SimulationVariables).time_since_departure ++ " months) weakens causation"]
         else []) ++
        (if ({} : SimulationVariables).competitor_relationship = "none" then
          ["Companies are not direct competitors"] else []) ∧
      create_variant_evidence_mc sampleState ({} : SimulationVariables) =
        create_variant_evidence_mc sampleState ({} : SimulationVariables)) :=
  ⟨rfl, C7_variant_derivation sampleState sampleEvidence {} rfl⟩

/-- C9 counterexample: on the text "I find for the defendant; the
plaintiff cannot win." structured parsing fails, the claim's described
heuristic (phrase scan, then occurrence counting) returns "defendant",
but the code's fallback — a bare substring test for "plaintiff" and
"win" — returns "plaintiff".  The claimed scanning mechanism is not what
the code does. -/
theorem C9_counterexample :
    ((json_loads (pyStrip (stripFences ("I find for the defendant; the plaintiff cannot win.")))).bind
        structuredVerdict = none) ∧
    claimedFallbackWinner ("I find for the defendant; the plaintiff cannot win.") = "defendant" ∧
    (parse_verdict ("I find for the defendant; the plaintiff cannot win.")).winner = "plaintiff" ∧
    (parse_verdict ("I find for the defendant; the plaintiff cannot win.")).winner ≠
      claimedFallbackWinner ("I find for the defendant; the plaintiff cannot win.") := by
  exact ⟨rfl, rfl, rfl, by decide⟩

/-- C9 amended: when structured verdict parsing fails, the fallback is a
substring test on the lowercased fence-stripped text — "plaintiff" and
"win" both present gives the plaintiff the win, otherwise "settlement"
present gives settlement, otherwise the defendant wins — and the fallback
is a deterministic function of the text. -/
theorem C9_amended_fallback (response : String)
    (h : (json_loads (pyStrip (stripFences response))).bind structuredVerdict = none) :
    (parse_verdict response).winner =
      (if strContains (lowerStr (stripFences response)) ("plaintiff") &&
          strContains (lowerStr (stripFences response)) ("win") then "plaintiff"
       else if strContains (lowerStr (stripFences response)) ("settlement") then "settlement"
       else "defendant") ∧
    parse_verdict response = parse_verdict response := by
  refine ⟨?_, rfl⟩
  simp only [parse_verdict, h]
  split_ifs <;> rfl

/-- Witness for C9's amended fallback at a concrete settlement text. -/
theorem C9_witness :
    ((json_loads (pyStrip (stripFences ("The parties have reached a settlement.")))).bind
        structuredVerdict = none) ∧
    ((parse_verdict ("The parties have reached a settlement.")).winner =
      (if strContains (lowerStr (stripFences ("The parties have reached a settlement."))) ("plaintiff") &&
          strContains (lowerStr (stripFences ("The parties have reached a settlement."))) ("win") then "plaintiff"
       else if strContains (lowerStr (stripFences ("The parties have reached a settlement."))) ("settlement") then "settlement"
       else "defendant") ∧
      parse_verdict ("The parties have reached a settlement.") =
        parse_verdict ("The parties have reached a settlement.")) :=
  ⟨rfl, C9_amended_fallback ("The parties have reached a settlement.") rfl⟩

/-- C10: on the structured path the winner is always one of "plaintiff",
"settlement", "defendant"; the raw winner is lowercased, and any other
value — including a missing key — normalises to winner "defendant" with
outcome `DEFENSE_WIN`. -/
theorem C10_structured_winner (response : String) (members : List (String × Json)) (v : Verdict)
    (h : json_loads (pyStrip (stripFences response)) = some (Json.obj members))
    (h2 : structuredVerdict (Json.obj members) = some v) :
    parse_verdict response = v ∧
    (v.winner = "plaintiff" ∨ v.winner = "settlement" ∨ v.winner = "defendant") ∧
    (∀ w, getWinnerLower members = some w → w ≠ "plaintiff" → w ≠ "settlement" →
      v.winner = "defendant" ∧ v.outcome = VerdictOutcome.DEFENSE_WIN) ∧
    (lookupField members ("winner") = none →
      v.winner = "defendant" ∧ v.outcome = VerdictOutcome.DEFENSE_WIN) := by
  obtain ⟨w, hw, hcase⟩ := structuredVerdict_winner members v h2
  have hmain : parse_verdict response = v := by
    simp only [parse_verdict, h, Option.some_bind, h2]
  have hnorm : ∀ w', getWinnerLower members = some w' → w' ≠ "plaintiff" → w' ≠ "settlement" →
      v.winner = "defendant" ∧ v.outcome = VerdictOutcome.DEFENSE_WIN := by
    intro w' hw' hnp hns
    rw [hw] at hw'
    cases hw'
    rcases hcase with ⟨hp, _⟩ | ⟨_, hs, _⟩ | ⟨_, _, hwv, hov⟩
    · exact absurd hp hnp
    · exact absurd hs hns
    · exact ⟨hwv, hov⟩
  refine ⟨hmain, ?_, hnorm, ?_⟩
  · rcases hcase with ⟨_, hwv, _⟩ | ⟨_, _, hwv, _⟩ | ⟨_, _, hwv, _⟩
    · exact Or.inl hwv
    · exact Or.inr (Or.inl hwv)
    · exact Or.inr (Or.inr hwv)
  · intro hnone
    have hwd : getWinnerLower members = some ("defendant") := by
      simp [getWinnerLower, hnone]
    exact hnorm ("defendant") hwd (by decide) (by decide)

/-- The verdict the structured path produces for the unrecognised winner
string "draw": defense win with the default confidence 0.7 clamped. -/
def drawVerdict : Verdict :=
  { outcome := VerdictOutcome.DEFENSE_WIN, winner := "defendant", rationale := "",
    key_factors := [], cited_authorities := [],
    confidence_score := min (1 : ℚ) (max 0 (7 / 10)) }

/-- Witness for C10 at a concrete response with an unrecognised winner. -/
theorem C10_witness :
    (json_loads (pyStrip (stripFences ("\x7b\"winner\": \"draw\"\x7d"))) =
      some (Json.obj [("winner", Json.str ("draw"))])) ∧
    (structuredVerdict (Json.obj [("winner", Json.str ("draw"))]) = some drawVerdict) ∧
    (parse_verdict ("\x7b\"winner\": \"draw\"\x7d") = drawVerdict ∧
     (drawVerdict.winner = "plaintiff" ∨ drawVerdict.winner = "settlement" ∨
       drawVerdict.winner = "defendant") ∧
     (∀ w, getWinnerLower [("winner", Json.str ("draw"))] = some w →
        w ≠ "plaintiff" → w ≠ "settlement" →
        drawVerdict.winner = "defendant" ∧ drawVerdict.outcome = VerdictOutcome.DEFENSE_WIN) ∧
     (lookupField [("winner", Json.str ("draw"))] ("winner") = none →
        drawVerdict.winner = "defendant" ∧ drawVerdict.outcome = VerdictOutcome.DEFENSE_WIN)) :=
  ⟨rfl, rfl, C10_structured_winner ("\x7b\"winner\": \"draw\"\x7d")
    [("winner", Json.str ("draw"))] drawVerdict rfl rfl⟩

/-- C1: with research done, `run_simulations(n)` for `n ≥ 1` returns an
analysis whose `total_simulations` equals `n` and leaves exactly `n`
results in the engine's list, no matter how many individual trials the
environment makes fail (each failed trial still contributes its synthetic
result). -/
theorem C1_run_simulations_count (env : TrialEnv) (st : MCState) (base : CaseEvidence) (n : ℕ)
    (hbase : st.base_evidence = some base) (hn : 1 ≤ n) :
    ∃ a st', run_simulations env st n = Except.ok (a, st') ∧
      a.total_simulations = n ∧ st'.results.length = n := by
  simp only [run_simulations, hbase]
  have hlen : (run_sims_from env
      { base_evidence := some base, results := [], analysis := st.analysis } 1 n).1.length = n :=
    run_sims_from_length env n _ 1
  cases hq : (run_sims_from env
      { base_evidence := some base, results := [], analysis := st.analysis } 1 n).1 with
  | nil =>
    rw [hq] at hlen
    simp at hlen
    omega
  | cons r rest =>
    rw [hq] at hlen
    refine ⟨_, _, rfl, ?_, ?_⟩
    · exact hlen
    · simpa using hlen

/-- Witness for C1: two simulations under an environment whose prosecutor
agent always raises still yield an analysis of exactly two results. -/
theorem C1_witness :
    (sampleState.base_evidence = some sampleEvidence) ∧ 1 ≤ 2 ∧
    (∃ a st', run_simulations failEnv sampleState 2 = Except.ok (a, st') ∧
      a.total_simulations = 2 ∧ st'.results.length = 2) :=
  ⟨rfl, by decide, C1_run_simulations_count failEnv sampleState sampleEvidence 2 rfl (by decide)⟩

/-- C5: in a trial whose agent calls all succeed, the recorded arguments
are exactly two per side in the interleaving
[prosecutor opening, defense opening, prosecutor rebuttal, defense
rebuttal], the prosecutor's rebuttal is computed from the defense's
opening and the defense's rebuttal from the prosecutor's opening (never
from each other's rebuttals), and the judge sees those argument lists. -/
theorem C5_protocol_order (env : TrialEnv) (st : MCState) (base : CaseEvidence)
    (vars : SimulationVariables) (sid : ℕ) (a1 a2 a3 a4 : LegalArgument) (v : Verdict)
    (hbase : st.base_evidence = some base)
    (h1 : env.prosecutorOpen (create_variant_evidence base vars).1 = Except.ok a1)
    (h2 : env.defenseOpen (create_variant_evidence base vars).1 = Except.ok a2)
    (h3 : env.prosecutorRebut a2 (create_variant_evidence base vars).1 = Except.ok a3)
    (h4 : env.defenseRebut a1 (create_variant_evidence base vars).1 = Except.ok a4)
    (h5 : env.judgeEvaluate [a1, a3] [a2, a4] (create_variant_evidence base vars).1 = Except.ok v) :
    (run_single_simulation env st sid vars).1.prosecutor_arguments = [a1, a3] ∧
    (run_single_simulation env st sid vars).1.defense_arguments = [a2, a4] ∧
    (run_single_simulation env st sid vars).1.verdict = v ∧
    (run_trial_core_traced env (create_variant_evidence base vars).1).2 =
      [TrialEvent.prosecutorOpening a1, TrialEvent.defenseOpening a2,
       TrialEvent.prosecutorRebuttal a2 a3, TrialEvent.defenseRebuttal a1 a4,
       TrialEvent.verdictIssued v] := by
  have hc : run_trial_core_traced env (create_variant_evidence base vars).1 =
      (Except.ok ([a1, a3], [a2, a4], v),
       [TrialEvent.prosecutorOpening a1, TrialEvent.defenseOpening a2,
        TrialEvent.prosecutorRebuttal a2 a3, TrialEvent.defenseRebuttal a1 a4,
        TrialEvent.verdictIssued v]) := by
    simp only [run_trial_core_traced, h1, h2, h3, h4, h5]
  have hcc : run_trial_core env (create_variant_evidence base vars).1 =
      Except.ok ([a1, a3], [a2, a4], v) := by
    rw [run_trial_core, hc]
  simp [run_single_simulation, create_variant_evidence_mc, hbase, hcc, hc]

/-- Witness for C5 with the always-successful environment. -/
theorem C5_witness :
    (sampleState.base_evidence = some sampleEvidence) ∧
    ((run_single_simulation okEnv sampleState 1 {}).1.prosecutor_arguments =
        [mkArg ("Prosecutor") ("p-open"), mkArg ("Prosecutor") ("p-rebut")] ∧
     (run_single_simulation okEnv sampleState 1 {}).1.defense_arguments =
        [mkArg ("Defense") ("d-open"), mkArg ("Defense") ("d-rebut")] ∧
     (run_single_simulation okEnv sampleState 1 {}).1.verdict = sampleVerdict ∧
     (run_trial_core_traced okEnv (create_variant_evidence sampleEvidence {}).1).2 =
       [TrialEvent.prosecutorOpening (mkArg ("Prosecutor") ("p-open")),
        TrialEvent.defenseOpening (mkArg ("Defense") ("d-open")),
        TrialEvent.prosecutorRebuttal (mkArg ("Defense") ("d-open")) (mkArg ("Prosecutor") ("p-rebut")),
        TrialEvent.defenseRebuttal (mkArg ("Prosecutor") ("p-open")) (mkArg ("Defense") ("d-rebut")),
        TrialEvent.verdictIssued sampleVerdict]) :=
  ⟨rfl, C5_protocol_order okEnv sampleState sampleEvidence {} 1
    (mkArg ("Prosecutor") ("p-open")) (mkArg ("Defense") ("d-open"))
    (mkArg ("Prosecutor") ("p-rebut")) (mkArg ("Defense") ("d-rebut"))
    sampleVerdict rfl rfl rfl rfl rfl rfl⟩

/-- C6: when any exception escapes the trial protocol,
`run_single_simulation` returns (rather than raises) the synthetic
result: winner "defendant", outcome `DEFENSE_WIN`, confidence 0.0, the
error marker "Simulation error: …" in the rationale and
"Error in simulation" in the key factors, with empty argument lists. -/
theorem C6_trial_error_synthesis (env : TrialEnv) (st : MCState) (base : CaseEvidence)
    (vars : SimulationVariables) (sid : ℕ) (msg : String)
    (hbase : st.base_evidence = some base)
    (herr : run_trial_core env (create_variant_evidence base vars).1 = Except.error msg) :
    (run_single_simulation env st sid vars).1 = mkErrorResult sid vars msg ∧
    (run_single_simulation env st sid vars).1.verdict.winner = "defendant" ∧
    (run_single_simulation env st sid vars).1.verdict.outcome = VerdictOutcome.DEFENSE_WIN ∧
    (run_single_simulation env st sid vars).1.verdict.confidence_score = 0 ∧
    (run_single_simulation env st sid vars).1.verdict.rationale = "Simulation error: " ++ msg ∧
    (run_single_simulation env st sid vars).1.verdict.key_factors = ["Error in simulation"] ∧
    (run_single_simulation env st sid vars).1.prosecutor_arguments = [] ∧
    (run_single_simulation env st sid vars).1.defense_arguments = [] := by
  have h0 : (run_single_simulation env st sid vars).1 = mkErrorResult sid vars msg := by
    simp only [run_single_simulation, create_variant_evidence_mc, hbase, herr]
  refine ⟨h0, ?_, ?_, ?_, ?_, ?_, ?_, ?_⟩ <;> rw [h0] <;> rfl

/-- Witness for C6 with the environment whose prosecutor agent raises. -/
theorem C6_witness :
    (sampleState.base_evidence = some sampleEvidence) ∧
    (run_trial_core failEnv (create_variant_evidence sampleEvidence {}).1 =
      Except.error ("completion timeout")) ∧
    ((run_single_simulation failEnv sampleState 1 {}).1 =
        mkErrorResult 1 {} ("completion timeout") ∧
     (run_single_simulation failEnv sampleState 1 {}).1.verdict.winner = "defendant" ∧
     (run_single_simulation failEnv sampleState 1 {}).1.verdict.outcome = VerdictOutcome.DEFENSE_WIN ∧
     (run_single_simulation failEnv sampleState 1 {}).1.verdict.confidence_score = 0 ∧
     (run_single_simulation failEnv sampleState 1 {}).1.verdict.rationale =
        "Simulation error: " ++ "completion timeout" ∧
     (run_single_simulation failEnv sampleState 1 {}).1.verdict.key_factors =
        ["Error in simulation"] ∧
     (run_single_simulation failEnv sampleState 1 {}).1.prosecutor_arguments = [] ∧
     (run_single_simulation failEnv sampleState 1 {}).1.defense_arguments = []) :=
  ⟨rfl, rfl, C6_trial_error_synthesis failEnv sampleState sampleEvidence {} 1
    ("completion timeout") rfl rfl⟩

/-- C8: `analyze_results` is a pure function of the result list (two
calls on the same list are equal), and the best configuration per side is
the argmax of `indicator(winner = side) * confidence_score` with ties
resolved to the first result in list order: the list splits around a
result carrying the chosen configuration, every earlier result scores
strictly less, and no result scores more. -/
theorem C8_analysis_pure_argmax (rs : List SimulationResult) (h : rs ≠ []) :
    analyze_results rs = analyze_results rs ∧
    ∃ a, analyze_results rs = Except.ok a ∧
      (∃ l1 r l2, rs = l1 ++ r :: l2 ∧ a.best_plaintiff_config = r.vars ∧
        (∀ y ∈ l1, bestKey ("plaintiff") y < bestKey ("plaintiff") r) ∧
        (∀ y ∈ rs, bestKey ("plaintiff") y ≤ bestKey ("plaintiff") r)) ∧
      (∃ l1 r l2, rs = l1 ++ r :: l2 ∧ a.best_defense_config = r.vars ∧
        (∀ y ∈ l1, bestKey ("defendant") y < bestKey ("defendant") r) ∧
        (∀ y ∈ rs, bestKey ("defendant") y ≤ bestKey ("defendant") r)) := by
  refine ⟨rfl, ?_⟩
  obtain ⟨r0, rest, rfl⟩ := List.exists_cons_of_ne_nil h
  refine ⟨_, rfl, ?_, ?_⟩
  · obtain ⟨l1, l2, hsplit, hlt, hle⟩ := pymax_spec (bestKey ("plaintiff")) rest r0
    refine ⟨l1, pymax (bestKey ("plaintiff")) r0 rest, l2, hsplit, ?_, hlt, hle⟩
    simp [analyze_results, _find_best_config]
  · obtain ⟨l1, l2, hsplit, hlt, hle⟩ := pymax_spec (bestKey ("defendant")) rest r0
    refine ⟨l1, pymax (bestKey ("defendant")) r0 rest, l2, hsplit, ?_, hlt, hle⟩
    simp [analyze_results, _find_best_config]

/-- Witness for C8 on a two-element list that ties on the defense score:
the argmax properties pin the analysis to the first-encountered result. -/
theorem C8_witness :
    ([mkRes 1 ("defendant") 1 ("a"), mkRes 2 ("defendant") 1 ("b")] ≠
        ([] : List SimulationResult)) ∧
    (analyze_results [mkRes 1 ("defendant") 1 ("a"), mkRes 2 ("defendant") 1 ("b")] =
        analyze_results [mkRes 1 ("defendant") 1 ("a"), mkRes 2 ("defendant") 1 ("b")] ∧
     ∃ a, analyze_results [mkRes 1 ("defendant") 1 ("a"), mkRes 2 ("defendant") 1 ("b")] =
          Except.ok a ∧
       (∃ l1 r l2, [mkRes 1 ("defendant") 1 ("a"), mkRes 2 ("defendant") 1 ("b")] = l1 ++ r :: l2 ∧
         a.best_plaintiff_config = r.vars ∧
         (∀ y ∈ l1, bestKey ("plaintiff") y < bestKey ("plaintiff") r) ∧
         (∀ y ∈ [mkRes 1 ("defendant") 1 ("a"), mkRes 2 ("defendant") 1 ("b")],
            bestKey ("plaintiff") y ≤ bestKey ("plaintiff") r)) ∧
       (∃ l1 r l2, [mkRes 1 ("defendant") 1 ("a"), mkRes 2 ("defendant") 1 ("b")] = l1 ++ r :: l2 ∧
         a.best_defense_config = r.vars ∧
         (∀ y ∈ l1, bestKey ("defendant") y < bestKey ("defendant") r) ∧
         (∀ y ∈ [mkRes 1 ("defendant") 1 ("a"), mkRes 2 ("defendant") 1 ("b")],
            bestKey ("defendant") y ≤ bestKey ("defendant") r))) :=
  ⟨by decide, C8_analysis_pure_argmax
    [mkRes 1 ("defendant") 1 ("a"), mkRes 2 ("defendant") 1 ("b")] (by decide)⟩

end LegalSim
